import Mathlib

/-
Verification of the ownership / company-finance engine of src/main.py
(monopoly-stocks). Python dicts are insertion-ordered, which the pro-rata
algorithm depends on, so ownership maps are modelled as association lists
with unique keys: lookup takes the first match, updating an existing key
keeps its position, inserting a new key appends at the end (exactly the
CPython dict behaviour exercised by the source). Machine integers are
Python arbitrary-precision ints, modelled as Int; Python floor division
and divmod are Int.fdiv / Int.fmod. Exceptions (ValueError, KeyError,
RuntimeError) are modelled with Except. Player identity (hashed by name,
compared by object identity) is a Nat id. The game-level model covers
Property assets grouped under one Company, the shape every claim below
exercises; Railroad majority-owner state is modelled separately.
-/

namespace MonopolyStocks

/-- A Python dict from player or asset id to an int, as an insertion-ordered
association list with unique keys. -/
abbrev Dict := List (Nat × Int)

/-- Dict lookup, d[k]; returns 0 when absent (each use site below notes why the
key is present on the executed paths, or models the KeyError explicitly). -/
def getD (d : Dict) (k : Nat) : Int :=
  match d.find? (fun kv => kv.1 == k) with
  | some kv => kv.2
  | none => 0

/-- Python membership test k in d. -/
def memD (d : Dict) (k : Nat) : Bool :=
  d.any (fun kv => kv.1 == k)

/-- Dict assignment d[k] = v: updates an existing key in place, appends a new
key at the end (CPython insertion-order semantics). -/
def setD : Dict → Nat → Int → Dict
  | [], k, v => [(k, v)]
  | kv :: rest, k, v => if kv.1 == k then (k, v) :: rest else kv :: setD rest k v

/-- The idiom: if k not in d: d[k] = 0; d[k] += v. -/
def addTo (d : Dict) (k : Nat) (v : Int) : Dict :=
  setD d k (getD d k + v)

/-- Dict deletion del d[k] (for a key known present; unique keys). -/
def eraseD (d : Dict) (k : Nat) : Dict :=
  d.filter (fun kv => kv.1 != k)

/-- sum(d.values()). -/
def sumD (d : Dict) : Int :=
  (d.map (fun kv => kv.2)).sum

/-- Whether some entry has value 0. -/
def hasZeroVal (d : Dict) : Bool :=
  d.any (fun kv => kv.2 == 0)

/-- Python exceptions raised by the modelled code. -/
inductive Exc where
  | valueError
  | keyError
  | runtimeError
deriving Repr, DecidableEq

instance {ε α : Type} [DecidableEq ε] [DecidableEq α] : DecidableEq (Except ε α) := fun x y =>
  match x, y with
  | .error a, .error b =>
      if h : a = b then .isTrue (by rw [h]) else .isFalse (fun hc => h (Except.error.inj hc))
  | .error _, .ok _ => .isFalse (fun hc => Except.noConfusion hc)
  | .ok _, .error _ => .isFalse (fun hc => Except.noConfusion hc)
  | .ok a, .ok b =>
      if h : a = b then .isTrue (by rw [h]) else .isFalse (fun hc => h (Except.ok.inj hc))

/-- Player: cash plus the portfolio dict (asset id to share count). The name,
position and jail-card fields play no part in any claim. -/
structure PlayerSt where
  cash : Int
  holdings : Dict
deriving Repr, DecidableEq

/-- Purchasable asset state: total_stock_value, owners dict (player id to
share count) and unowned_stock. Rent data plays no part in any claim. -/
structure Asset where
  total_stock_value : Int
  owners : Dict
  unowned_stock : Int
deriving Repr, DecidableEq

/-- Company: pooled funds and the aggregated owner dict. -/
structure Company where
  funds : Int
  owners : Dict
deriving Repr, DecidableEq

/-- The mutable heap of one game: the player table, the single company's
ordered asset table (each asset's company back-reference is this company),
and the company itself. -/
structure GameState where
  players : List (Nat × PlayerSt)
  assets : List (Nat × Asset)
  company : Company
deriving Repr, DecidableEq

def findP (gs : GameState) (pid : Nat) : Option PlayerSt :=
  (gs.players.find? (fun kv => kv.1 == pid)).map (fun kv => kv.2)

def findA (gs : GameState) (aid : Nat) : Option Asset :=
  (gs.assets.find? (fun kv => kv.1 == aid)).map (fun kv => kv.2)

/-- Write back a mutated asset object. -/
def setA (gs : GameState) (aid : Nat) (a : Asset) : GameState :=
  { gs with assets := gs.assets.map (fun kv => if kv.1 == aid then (kv.1, a) else kv) }

/-- player.cash += delta. -/
def updateCash (players : List (Nat × PlayerSt)) (pid : Nat) (delta : Int) :
    List (Nat × PlayerSt) :=
  players.map (fun kv =>
    if kv.1 == pid then (kv.1, { kv.2 with cash := kv.2.cash + delta }) else kv)

/-- Apply a function to one player's portfolio dict. -/
def mapHoldings (gs : GameState) (pid : Nat) (f : Dict → Dict) : GameState :=
  { gs with players := gs.players.map (fun kv =>
      if kv.1 == pid then (kv.1, { kv.2 with holdings := f kv.2.holdings }) else kv) }

/-- Purchasable.get_stock_price: total_stock_value * num_shares // 100
(Python floor division). -/
def get_stock_price (a : Asset) (num_shares : Int) : Int :=
  Int.fdiv (a.total_stock_value * num_shares) 100

/-- First loop of Purchasable.sell_stock: for each seller (snapshot holding h),
bought_shares, leftover = divmod(h * num_shares, 100); the live owners entry is
reduced by bought_shares and leftover accumulates. Arguments: remaining seller
snapshot, live owners, the reduced num_shares, the leftover accumulator. -/
def floorLoop : Dict → Dict → Int → Int → Dict × Int
  | [], owners, _, tl => (owners, tl)
  | (s, h) :: rest, owners, n, tl =>
      floorLoop rest (setD owners s (getD owners s - Int.fdiv (h * n) 100)) n
        (tl + Int.fmod (h * n) 100)

/-- Second loop of Purchasable.sell_stock: a single pass over the seller
snapshot; at each seller, if total_leftover is 0 the function returns (skipping
the final cleanup); otherwise an owner with a positive live balance loses one
share and total_leftover drops by one. Returns the owners and whether that
early return fired. -/
def remLoop : Dict → Dict → Int → Dict × Bool
  | [], owners, _ => (owners, false)
  | (s, _) :: rest, owners, tl =>
      if tl == 0 then (owners, true)
      else if getD owners s > 0 then remLoop rest (setD owners s (getD owners s - 1)) (tl - 1)
      else remLoop rest owners tl

/-- Purchasable.sell_stock up to (not including) its final self.cleanup():
credit the buyer, serve from unowned_stock when it suffices (early return),
otherwise consume unowned_stock, snapshot the sellers (owners copy minus the
buyer) and run the two loops. The returned Bool says whether the trailing
cleanup call is reached (false at either early return). -/
def sell_stock_core (a : Asset) (buyer : Nat) (num_shares : Int) : Asset × Bool :=
  let owners0 := addTo a.owners buyer num_shares
  if a.unowned_stock ≥ num_shares then
    ({ a with owners := owners0, unowned_stock := a.unowned_stock - num_shares }, false)
  else
    let n := if a.unowned_stock == 0 then num_shares else num_shares - a.unowned_stock
    let sellers := eraseD owners0 buyer
    let p1 := floorLoop sellers owners0 n 0
    let p2 := remLoop sellers p1.1 p1.2
    ({ a with owners := p2.1, unowned_stock := 0 }, !p2.2)

/-- The body of Purchasable.cleanup before the company cascade. The source loop
deletes zero-balance entries from the dict it is iterating; in CPython any
deletion during dict iteration makes the following iterator step raise
RuntimeError, so the pass raises exactly when some entry is 0. Otherwise no
entry is deleted and unowned_stock is recomputed when total holdings are below
100 (and left alone otherwise). -/
def asset_cleanup_local (a : Asset) : Except Exc Asset :=
  if hasZeroVal a.owners then .error .runtimeError
  else
    let owned := sumD a.owners
    .ok { a with unowned_stock := if owned < 100 then 100 - owned else a.unowned_stock }

/-- Company.__init__ owner aggregation: every asset's owner counts, in asset
then owner order, are added into the company owner dict. -/
def companyInitOwners (assets : List (Nat × Asset)) : Dict :=
  assets.foldl (fun d kvA => kvA.2.owners.foldl (fun d2 kv => addTo d2 kv.1 kv.2) d) []

/-- The first loop of Company.cleanup: each asset (in order) runs its local
cleanup with do_company_cleanup False, then its owner counts are added into the
company owner dict. The source never resets that dict first, so counts pile on
top of whatever is already there. Returns the updated asset table and dict. -/
def aggregateAssets : List (Nat × Asset) → Dict → Except Exc (List (Nat × Asset) × Dict)
  | [], cowners => .ok ([], cowners)
  | (aid, a) :: rest, cowners =>
      match asset_cleanup_local a with
      | .error e => .error e
      | .ok a' =>
          match aggregateAssets rest (a'.owners.foldl (fun d kv => addTo d kv.1 kv.2) cowners) with
          | .error e => .error e
          | .ok pr => .ok ((aid, a') :: pr.1, pr.2)

/-- The state of the game after Company.cleanup's aggregation loop. -/
def aggregated (gs : GameState) : Except Exc GameState :=
  match aggregateAssets gs.assets gs.company.owners with
  | .error e => .error e
  | .ok pr => .ok { gs with assets := pr.1, company := { gs.company with owners := pr.2 } }

/-- The debt loop of Company.cleanup: every company owner, in dict order, is
queried for a contribution (Player.do_request re-prompts until the reply is one
of 0..cash, so ans stands for the validated reply); the owner's cash is debited
and the replies accumulate. Returns the player table and added_funds. -/
def contribLoop (ans : Nat → Int) : Dict → List (Nat × PlayerSt) → Int →
    List (Nat × PlayerSt) × Int
  | [], players, added => (players, added)
  | (pid, _) :: rest, players, added =>
      contribLoop ans rest (updateCash players pid (-(ans pid))) (added + ans pid)

/-- The game state right after the contributions: players debited and
added_funds applied to the company funds. -/
def afterContrib (gs : GameState) (ans : Nat → Int) : GameState :=
  let pr := contribLoop ans gs.company.owners gs.players 0
  { gs with players := pr.1, company := { gs.company with funds := gs.company.funds + pr.2 } }

/-- del owner.portfolio[asset] as run by Property.foreclose: KeyError when the
player or the entry is missing. -/
def delHolding (players : List (Nat × PlayerSt)) (pid aid : Nat) :
    Except Exc (List (Nat × PlayerSt)) :=
  match players.find? (fun kv => kv.1 == pid) with
  | none => .error .keyError
  | some kv =>
      if memD kv.2.holdings aid then
        .ok (players.map (fun kw =>
          if kw.1 == pid then (kw.1, { kw.2 with holdings := eraseD kw.2.holdings aid }) else kw))
      else .error .keyError

/-- Property.foreclose's loop over the asset's owners, deleting each owner's
portfolio entry for this asset. -/
def forecloseOwners (aid : Nat) : Dict → List (Nat × PlayerSt) →
    Except Exc (List (Nat × PlayerSt))
  | [], players => .ok players
  | (pid, _) :: rest, players =>
      match delHolding players pid aid with
      | .error e => .error e
      | .ok players' => forecloseOwners aid rest players'

/-- Foreclose every asset in order (Property.foreclose: portfolio entries
deleted, owners cleared, unowned_stock reset to 100). -/
def forecloseAssets : List (Nat × Asset) → List (Nat × PlayerSt) →
    Except Exc (List (Nat × Asset) × List (Nat × PlayerSt))
  | [], players => .ok ([], players)
  | (aid, a) :: rest, players =>
      match forecloseOwners aid a.owners players with
      | .error e => .error e
      | .ok players' =>
          match forecloseAssets rest players' with
          | .error e => .error e
          | .ok pr => .ok ((aid, { a with owners := [], unowned_stock := 100 }) :: pr.1, pr.2)

/-- Company.foreclose: funds reset to 0, the company owner dict cleared, every
asset foreclosed. -/
def companyForeclose (gs : GameState) : Except Exc GameState :=
  match forecloseAssets gs.assets gs.players with
  | .error e => .error e
  | .ok pr => .ok { players := pr.2, assets := pr.1, company := { funds := 0, owners := [] } }

/-- Company.cleanup: aggregate, then if funds are negative run the bailout
contributions and, if funds are still negative, foreclose. -/
def companyCleanup (gs : GameState) (ans : Nat → Int) : Except Exc GameState :=
  match aggregated gs with
  | .error e => .error e
  | .ok gs1 =>
      if gs1.company.funds < 0 then
        let gs2 := afterContrib gs1 ans
        if gs2.company.funds < 0 then companyForeclose gs2 else .ok gs2
      else .ok gs1

/-- Purchasable.cleanup(do_company_cleanup): the local pass, then the company
cascade when the flag is set. -/
def assetCleanup (gs : GameState) (aid : Nat) (doCompany : Bool) (ans : Nat → Int) :
    Except Exc GameState :=
  match findA gs aid with
  | none => .error .keyError
  | some a =>
      match asset_cleanup_local a with
      | .error e => .error e
      | .ok a' =>
          if doCompany then companyCleanup (setA gs aid a') ans else .ok (setA gs aid a')

/-- Purchasable.sell_stock in full: the core, then (unless one of the early
returns fired) the trailing self.cleanup() with its company cascade. -/
def assetSellStock (gs : GameState) (aid buyer : Nat) (num_shares : Int) (ans : Nat → Int) :
    Except Exc GameState :=
  match findA gs aid with
  | none => .error .keyError
  | some a =>
      let pr := sell_stock_core a buyer num_shares
      if pr.2 then assetCleanup (setA gs aid pr.1) aid true ans else .ok (setA gs aid pr.1)

/-- Purchasable.buy_stock (a holder liquidates to the company): the company
funds are debited by the stock price, the seller's owner entry is reduced
(KeyError when the seller is not in owners), then the full cleanup runs. No
cash is credited to the seller here or anywhere in the caller. -/
def assetBuyStock (gs : GameState) (aid seller : Nat) (num_shares : Int) (ans : Nat → Int) :
    Except Exc GameState :=
  match findA gs aid with
  | none => .error .keyError
  | some a =>
      let gs1 := { gs with company :=
        { gs.company with funds := gs.company.funds - get_stock_price a num_shares } }
      if memD a.owners seller then
        assetCleanup
          (setA gs1 aid { a with owners := setD a.owners seller (getD a.owners seller - num_shares) })
          aid true ans
      else .error .keyError

/-- Player.cleanup: the same delete-during-iteration pattern as the asset
cleanup, so it raises RuntimeError exactly when some portfolio entry is 0 and
otherwise changes nothing. -/
def playerCleanup (gs : GameState) (pid : Nat) : Except Exc GameState :=
  match findP gs pid with
  | none => .error .keyError
  | some p => if hasZeroVal p.holdings then .error .runtimeError else .ok gs

/-- Player.buy_stock. The guard is the chained comparison
0 >= num_shares >= max_poss_buy exactly as written (both inequalities must
hold for the ValueError). On success the cash is debited, the asset's
sell_stock runs (with its cleanup cascade), the portfolio entry is credited
and True is returned. -/
def playerBuyStock (gs : GameState) (pid aid : Nat) (num_shares : Int) (ans : Nat → Int) :
    Except Exc (GameState × Bool) :=
  match findP gs pid, findA gs aid with
  | some p, some a =>
      let max_poss_buy := if memD p.holdings aid then 100 - getD p.holdings aid else 100
      if 0 ≥ num_shares ∧ num_shares ≥ max_poss_buy then .error .valueError
      else if get_stock_price a num_shares > p.cash then .ok (gs, false)
      else
        match assetSellStock
            { gs with players := updateCash gs.players pid (-(get_stock_price a num_shares)) }
            aid pid num_shares ans with
        | .error e => .error e
        | .ok gs2 => .ok (mapHoldings gs2 pid (fun h => addTo h aid num_shares), true)
  | _, _ => .error .keyError

/-- self.portfolio[space] -= num_shares in Player.sell_stock: KeyError when the
entry is gone (an intervening foreclosure can delete it). -/
def subHolding (gs : GameState) (pid aid : Nat) (n : Int) : Except Exc GameState :=
  match findP gs pid with
  | none => .error .keyError
  | some p =>
      if memD p.holdings aid then
        .ok (mapHoldings gs pid (fun h => setD h aid (getD h aid - n)))
      else .error .keyError

/-- Player.sell_stock. The guard returns False (no state change); the success
path runs the asset's buy_stock, debits the portfolio entry, runs
Player.cleanup and then falls off the end of the function, returning Python
None, modelled as none (the source has no return statement there despite the
declared bool return type). -/
def playerSellStock (gs : GameState) (pid aid : Nat) (num_shares : Int) (ans : Nat → Int) :
    Except Exc (GameState × Option Bool) :=
  match findP gs pid with
  | none => .error .keyError
  | some p =>
      if !(memD p.holdings aid) || num_shares > getD p.holdings aid then .ok (gs, some false)
      else
        match assetBuyStock gs aid pid num_shares ans with
        | .error e => .error e
        | .ok gs1 =>
            match subHolding gs1 pid aid num_shares with
            | .error e => .error e
            | .ok gs2 =>
                match playerCleanup gs2 pid with
                | .error e => .error e
                | .ok gs3 => .ok (gs3, none)

/-- Railroad (the Utility variant is line-for-line identical for the fields a
claim touches): owners, unowned_stock and the majority_owner reference. -/
structure Railroad where
  owners : Dict
  unowned_stock : Int
  majority_owner : Option Nat
deriving Repr, DecidableEq

/-- The majority scan at the end of Railroad.cleanup: the first owner holding
more than 50 becomes majority owner; when no owner exceeds 50 the previous
value is left in place (the loop just never assigns). -/
def rrMajority (owners : Dict) (prev : Option Nat) : Option Nat :=
  match owners.find? (fun kv => 50 < kv.2) with
  | some kv => some kv.1
  | none => prev

/-- Railroad.cleanup: the inherited Purchasable.cleanup local pass (the company
cascade never writes majority_owner, so it is not part of railroad state),
then the majority scan. -/
def rrCleanup (r : Railroad) : Except Exc Railroad :=
  if hasZeroVal r.owners then .error .runtimeError
  else
    .ok { owners := r.owners,
          unowned_stock :=
            if sumD r.owners < 100 then 100 - sumD r.owners else r.unowned_stock,
          majority_owner := rrMajority r.owners r.majority_owner }

/-- Railroad.foreclose: majority_owner cleared, owners cleared, unowned_stock
reset to 100. -/
def rrForeclose (_r : Railroad) : Railroad :=
  { owners := [], unowned_stock := 100, majority_owner := none }

/-- A sale back to the pool on a railroad: the ownership effect of
Purchasable.buy_stock (the company-funds debit is not railroad state) followed
by the railroad cleanup pass. -/
def rrSale (r : Railroad) (seller : Nat) (n : Int) : Except Exc Railroad :=
  if memD r.owners seller then
    rrCleanup { r with owners := setD r.owners seller (getD r.owners seller - n) }
  else .error .keyError

/-- An operation on a railroad: a sale back to the pool or a cleanup pass. -/
inductive RROp where
  | sale (seller : Nat) (n : Int)
  | cleanupPass
deriving Repr, DecidableEq

def rrStep (r : Railroad) : RROp → Except Exc Railroad
  | .sale s n => rrSale r s n
  | .cleanupPass => rrCleanup r

def rrRun : Railroad → List RROp → Except Exc Railroad
  | r, [] => .ok r
  | r, op :: rest =>
      match rrStep r op with
      | .error e => .error e
      | .ok r1 => rrRun r1 rest

/-- Every owner of the railroad holds at most 50 shares. -/
def allLE50 (r : Railroad) : Bool :=
  r.owners.all (fun kv => kv.2 ≤ 50)

/-- A sale removes a nonnegative number of shares (a cleanup pass always
qualifies). -/
def opNonneg : RROp → Bool
  | .sale _ n => 0 ≤ n
  | .cleanupPass => true

/-- The C1 invariant for one asset: holdings sum plus unowned_stock is 100 and
every owner entry is positive. -/
def assetInvariant (a : Asset) : Bool :=
  sumD a.owners + a.unowned_stock == 100 && a.owners.all (fun kv => 0 < kv.2)

/-- A player's total holding across the company's assets. -/
def totalHolding (gs : GameState) (pid : Nat) : Int :=
  (gs.assets.map (fun kv => getD kv.2.owners pid)).sum

/-- A bailout reply function for scenarios in which no bailout is reached. -/
def ansZero : Nat → Int := fun _ => 0

/-- C1 failing input: player 0 holds 80, player 1 holds 20, nothing unowned. -/
def assetC1 : Asset :=
  { total_stock_value := 1000, owners := [(0, 80), (1, 20)], unowned_stock := 0 }

def gsC1 : GameState :=
  { players := [(0, { cash := 0, holdings := [(0, 80)] }),
                (1, { cash := 2000, holdings := [(0, 20)] })],
    assets := [(0, assetC1)],
    company := { funds := 0, owners := companyInitOwners [(0, assetC1)] } }

/-- C2 failing input: one asset, player 0 holds 50, half unowned. -/
def assetC2 : Asset :=
  { total_stock_value := 500, owners := [(0, 50)], unowned_stock := 50 }

def gsC2 : GameState :=
  { players := [(0, { cash := 0, holdings := [(0, 50)] })],
    assets := [(0, assetC2)],
    company := { funds := 0, owners := companyInitOwners [(0, assetC2)] } }

/-- C3 failing input: player 1 holds 30 shares and 2000 cash; the company has
ample funds so the sale triggers no bailout. -/
def assetC3 : Asset :=
  { total_stock_value := 1000, owners := [(1, 30)], unowned_stock := 70 }

def gsC3 : GameState :=
  { players := [(1, { cash := 2000, holdings := [(0, 30)] })],
    assets := [(0, assetC3)],
    company := { funds := 1000, owners := companyInitOwners [(0, assetC3)] } }

/-- C4 input: owners A:33 (id 0), B:33 (id 1), C:34 (id 2), nothing unowned;
buyer D is id 3. -/
def assetC4 : Asset :=
  { total_stock_value := 1000, owners := [(0, 33), (1, 33), (2, 34)], unowned_stock := 0 }

def gsC4 : GameState :=
  { players := [(0, { cash := 0, holdings := [(0, 33)] }),
                (1, { cash := 0, holdings := [(0, 33)] }),
                (2, { cash := 0, holdings := [(0, 34)] }),
                (3, { cash := 1000, holdings := [] })],
    assets := [(0, assetC4)],
    company := { funds := 0, owners := companyInitOwners [(0, assetC4)] } }

/-- C5 input: funds -100, owners A (id 0) with 60 shares and B (id 1) with 40,
each holding 200 cash. -/
def assetC5 : Asset :=
  { total_stock_value := 1000, owners := [(0, 60), (1, 40)], unowned_stock := 0 }

def gsC5 : GameState :=
  { players := [(0, { cash := 200, holdings := [(0, 60)] }),
                (1, { cash := 200, holdings := [(0, 40)] })],
    assets := [(0, assetC5)],
    company := { funds := -100, owners := companyInitOwners [(0, assetC5)] } }

/-- C5 bailout replies 60 (player 0) and 40 (player 1). -/
def ansC5a : Nat → Int := fun p => if p == 0 then 60 else 40

/-- C5 bailout replies 10 and 10. -/
def ansC5b : Nat → Int := fun _ => 10

/-- C6 failing input: a fresh asset, buyer (id 1) with plenty of cash. -/
def assetC6 : Asset :=
  { total_stock_value := 1000, owners := [], unowned_stock := 100 }

def gsC6 : GameState :=
  { players := [(1, { cash := 2000, holdings := [] })],
    assets := [(0, assetC6)],
    company := { funds := 0, owners := [] } }

/-- C7 witness railroad: majority owner 1 already set, holdings 40 and 30. -/
def rrW : Railroad :=
  { owners := [(1, 40), (2, 30)], unowned_stock := 30, majority_owner := some 1 }

def rrWops : List RROp := [.cleanupPass, .sale 1 10, .cleanupPass]

/-- The state rrRun reaches from rrW on rrWops. -/
def rrW1 : Railroad :=
  { owners := [(1, 30), (2, 30)], unowned_stock := 40, majority_owner := some 1 }

/-- C8 input: owners A:60 (id 0), B:40 (id 1), nothing unowned; buyer C is
id 2. -/
def assetC8 : Asset :=
  { total_stock_value := 1000, owners := [(0, 60), (1, 40)], unowned_stock := 0 }

def gsC8 : GameState :=
  { players := [(0, { cash := 0, holdings := [(0, 60)] }),
                (1, { cash := 0, holdings := [(0, 40)] }),
                (2, { cash := 0, holdings := [] })],
    assets := [(0, assetC8)],
    company := { funds := 0, owners := companyInitOwners [(0, assetC8)] } }

/-- C9 failing input: a zero-balance owner entry (and matching zero-balance
portfolio entry) for player 0. -/
def assetC9 : Asset :=
  { total_stock_value := 1000, owners := [(0, 0), (1, 50)], unowned_stock := 50 }

def gsC9 : GameState :=
  { players := [(0, { cash := 0, holdings := [(0, 0)] }),
                (1, { cash := 0, holdings := [(0, 50)] })],
    assets := [(0, assetC9)],
    company := { funds := 0, owners := [(1, 50)] } }

/-- C10 input: player 1 holds 40 shares; player 2 holds none. -/
def assetC10 : Asset :=
  { total_stock_value := 1000, owners := [(1, 40)], unowned_stock := 60 }

def gsC10 : GameState :=
  { players := [(1, { cash := 500, holdings := [(0, 40)] }),
                (2, { cash := 50, holdings := [] })],
    assets := [(0, assetC10)],
    company := { funds := 1000, owners := companyInitOwners [(0, assetC10)] } }

/-- The state after the C3 purchase (player 1 buys 10 shares). -/
def sellResC3 : Except Exc (GameState × Option Bool) :=
  match playerBuyStock gsC3 1 0 10 ansZero with
  | .error e => .error e
  | .ok gb => playerSellStock gb.1 1 0 10 ansZero

theorem getD_le_of_all {d : Dict} {k : Nat} {b : Int}
    (hb : 0 ≤ b) (h : ∀ kv ∈ d, kv.2 ≤ b) : getD d k ≤ b := by
  unfold getD
  cases hfind : d.find? (fun kv => kv.1 == k) with
  | none => exact hb
  | some kv => exact h kv (List.mem_of_find?_eq_some hfind)

theorem mem_setD {d : Dict} {k : Nat} {v : Int} {kv : Nat × Int}
    (h : kv ∈ setD d k v) : kv ∈ d ∨ kv = (k, v) := by
  induction d with
  | nil =>
      simp [setD] at h
      exact Or.inr h
  | cons hd tl ih =>
      by_cases hk : (hd.1 == k) = true
      · simp only [setD, if_pos hk] at h
        rcases List.mem_cons.mp h with h1 | h1
        · exact Or.inr h1
        · exact Or.inl (List.mem_cons_of_mem _ h1)
      · simp only [setD, if_neg hk] at h
        rcases List.mem_cons.mp h with h1 | h1
        · exact Or.inl (h1 ▸ List.mem_cons_self _ _)
        · rcases ih h1 with h2 | h2
          · exact Or.inl (List.mem_cons_of_mem _ h2)
          · exact Or.inr h2

theorem rrMajority_of_allLE {owners : Dict} {prev : Option Nat}
    (h : ∀ kv ∈ owners, kv.2 ≤ 50) : rrMajority owners prev = prev := by
  unfold rrMajority
  cases hfind : owners.find? (fun kv => 50 < kv.2) with
  | none => rfl
  | some kv =>
      have hmem := List.mem_of_find?_eq_some hfind
      have hp : 50 < kv.2 := of_decide_eq_true (by simpa using List.find?_some hfind)
      have h2 := h kv hmem
      exact absurd hp (by omega)

theorem rrCleanup_ok {r r' : Railroad} (hle : ∀ kv ∈ r.owners, kv.2 ≤ 50)
    (h : rrCleanup r = .ok r') :
    r'.owners = r.owners ∧ r'.majority_owner = r.majority_owner := by
  unfold rrCleanup at h
  by_cases hz : hasZeroVal r.owners = true
  · rw [if_pos hz] at h
    exact absurd h (by simp)
  · rw [if_neg hz] at h
    injection h with h
    subst h
    exact ⟨rfl, rrMajority_of_allLE hle⟩

theorem allLE_setD_sub {d : Dict} {s : Nat} {n : Int}
    (hle : ∀ kv ∈ d, kv.2 ≤ 50) (hn : 0 ≤ n) :
    ∀ kv ∈ setD d s (getD d s - n), kv.2 ≤ 50 := by
  intro kv hm
  rcases mem_setD hm with h1 | h1
  · exact hle kv h1
  · have hg : getD d s ≤ 50 := getD_le_of_all (by norm_num) hle
    subst h1
    simp only []
    omega

theorem rrSale_ok {r r' : Railroad} {s : Nat} {n : Int}
    (hle : ∀ kv ∈ r.owners, kv.2 ≤ 50) (hn : 0 ≤ n) (h : rrSale r s n = .ok r') :
    r'.majority_owner = r.majority_owner ∧ ∀ kv ∈ r'.owners, kv.2 ≤ 50 := by
  unfold rrSale at h
  by_cases hm : memD r.owners s = true
  · rw [if_pos hm] at h
    have hle1 : ∀ kv ∈ setD r.owners s (getD r.owners s - n), kv.2 ≤ 50 :=
      allLE_setD_sub hle hn
    have hc := rrCleanup_ok (r := { r with owners := setD r.owners s (getD r.owners s - n) })
      hle1 h
    refine ⟨hc.2, ?_⟩
    rw [hc.1]
    exact hle1
  · rw [if_neg hm] at h
    exact absurd h (by simp)

theorem rrStep_ok {r r' : Railroad} {op : RROp}
    (hle : ∀ kv ∈ r.owners, kv.2 ≤ 50) (hop : opNonneg op = true)
    (h : rrStep r op = .ok r') :
    r'.majority_owner = r.majority_owner ∧ ∀ kv ∈ r'.owners, kv.2 ≤ 50 := by
  cases op with
  | sale s n =>
      have hn : 0 ≤ n := by simpa [opNonneg] using hop
      exact rrSale_ok hle hn h
  | cleanupPass =>
      have hc := rrCleanup_ok hle h
      refine ⟨hc.2, ?_⟩
      rw [hc.1]
      exact hle

theorem rrRun_ok (ops : List RROp) : ∀ r r' : Railroad,
    (∀ kv ∈ r.owners, kv.2 ≤ 50) → (∀ op ∈ ops, opNonneg op = true) →
    rrRun r ops = .ok r' →
    r'.majority_owner = r.majority_owner ∧ ∀ kv ∈ r'.owners, kv.2 ≤ 50 := by
  induction ops with
  | nil =>
      intro r r' hle _ h
      unfold rrRun at h
      injection h with h
      subst h
      exact ⟨rfl, hle⟩
  | cons op rest ih =>
      intro r r' hle hops h
      unfold rrRun at h
      cases hstep : rrStep r op with
      | error e =>
          rw [hstep] at h
          simp at h
      | ok r1 =>
          rw [hstep] at h
          have h1 := rrStep_ok hle (hops op (List.mem_cons_self op rest)) hstep
          have h2 := ih r1 r' h1.2 (fun o ho => hops o (List.mem_cons_of_mem op ho)) h
          exact ⟨h2.1.trans h1.1, h2.2⟩

theorem allLE50_iff {r : Railroad} : allLE50 r = true ↔ ∀ kv ∈ r.owners, kv.2 ≤ 50 := by
  unfold allLE50
  rw [List.all_eq_true]
  constructor
  · intro h kv hm
    exact of_decide_eq_true (h kv hm)
  · intro h kv hm
    exact decide_eq_true (h kv hm)

/-- Claim C1, code evaluation at the failing input: player 1 already holds 20
shares of a fully-owned asset and buys 10 more; the purchase reports success,
yet the pro-rata pass (which dilutes by h*n/100 against the full pool of 100
rather than the sellers' actual total) removes only 8 shares from the other
owner and the leftover early return skips cleanup, leaving holdings 72 + 30
with unowned_stock 0: the sum is 102, so the sum-to-100 invariant fails after
a public buy. -/
theorem claim_C1_code_bug :
    (playerBuyStock gsC1 1 0 10 ansZero).map
        (fun gb => (gb.2, (findA gb.1 0).map
          (fun a => (sumD a.owners + a.unowned_stock, assetInvariant a))))
      = .ok (true, some (102, false)) := by decide

/-- Claim C2, code evaluation at the failing input: one asset on which player 0
holds 50 shares. Company.__init__ already aggregated 50 into the company owner
dict and Company.cleanup aggregates on top without resetting the dict, so
immediately after cleanup the company-level entry is 100 while the player's
actual holding across the company's assets is 50. -/
theorem claim_C2_code_bug :
    (companyCleanup gsC2 ansZero).map
        (fun gs1 => (getD gs1.company.owners 0, totalHolding gs1 0))
      = .ok (100, 50) ∧ (100 : Int) ≠ 50 := by decide

/-- Claim C3, code evaluation at the failing input: player 1 (cash 2000,
holding 30 shares) buys 10 shares for price_for(10) = 100, then immediately
sells the same 10 shares. The sale debits the company funds by 100 but no code
path credits the seller, so cash stays at 1900 instead of returning to 2000. -/
theorem claim_C3_code_bug :
    (playerBuyStock gsC3 1 0 10 ansZero).map
        (fun gb => (gb.2, (findP gb.1 1).map (fun p => p.cash)))
      = .ok (true, some 1900)
    ∧ sellResC3.map
        (fun gr => (gr.2, (findP gr.1 1).map (fun p => p.cash), gr.1.company.funds))
      = .ok (none, some 1900, 900)
    ∧ get_stock_price assetC3 10 = 100 := by decide

/-- Claim C4, counterexample at the claim's own input (owners 33/33/34, buyer
3 takes 10): the prior owners end at 29 + 29 + 30 = 88, i.e. 12 shares were
removed, not the claimed exactly 10. -/
theorem claim_C4_counterexample :
    (assetSellStock gsC4 0 3 10 ansZero).map
        (fun gs1 => (findA gs1 0).map (fun a => sumD (eraseD a.owners 3)))
      = .ok (some 88)
    ∧ ¬ (assetSellStock gsC4 0 3 10 ansZero).map
        (fun gs1 => (findA gs1 0).map (fun a => sumD (eraseD a.owners 3)))
      = .ok (some 90) := by decide

/-- Claim C4 as amended: each prior owner first loses floor(h*10/100) = 3
shares; the accumulated remainder is 30 + 30 + 40 = 100 (leftovers are
hundredths of a share, not whole shares); the single distribution pass then
removes one further share from each of the three owners (the remainder is
nowhere near exhausted), so the total removed is 12, the final distribution is
29/29/30 with the buyer at 10, and cleanup recomputes unowned_stock = 2. -/
theorem claim_C4_amended :
    (floorLoop (eraseD (addTo assetC4.owners 3 10) 3) (addTo assetC4.owners 3 10) 10 0).2 = 100
    ∧ (assetSellStock gsC4 0 3 10 ansZero).map (fun gs1 => findA gs1 0)
      = .ok (some { total_stock_value := 1000,
                    owners := [(0, 29), (1, 29), (2, 30), (3, 10)],
                    unowned_stock := 2 }) := by decide

/-- Claim C5: company funds -100 with two owners holding 200 cash each.
Bailout replies 60 and 40 bring funds to exactly 0, no foreclosure happens and
the asset ownership is untouched; replies 10 and 10 leave funds at -80 after
the contributions, so foreclosure triggers: the company funds reset to 0 and
the asset is reset to fully unowned (owner map emptied, unowned_stock 100,
portfolio entries deleted). -/
theorem claim_C5 :
    (companyCleanup gsC5 ansC5a).map (fun gs1 => gs1.company.funds) = .ok 0
    ∧ (companyCleanup gsC5 ansC5a).map
        (fun gs1 => (findA gs1 0).map (fun a => (a.owners, a.unowned_stock)))
      = .ok (some ([(0, 60), (1, 40)], 0))
    ∧ (companyCleanup gsC5 ansC5a).map
        (fun gs1 => ((findP gs1 0).map (fun p => p.cash), (findP gs1 1).map (fun p => p.cash)))
      = .ok (some 140, some 160)
    ∧ (aggregated gsC5).map (fun gs1 => (afterContrib gs1 ansC5b).company.funds) = .ok (-80)
    ∧ (companyCleanup gsC5 ansC5b).map
        (fun gs1 => (findA gs1 0).map (fun a => (a.owners, a.unowned_stock)))
      = .ok (some ([], 100))
    ∧ (companyCleanup gsC5 ansC5b).map (fun gs1 => gs1.company.funds) = .ok 0
    ∧ (companyCleanup gsC5 ansC5b).map
        (fun gs1 => ((findP gs1 0).map (fun p => p.holdings),
          (findP gs1 1).map (fun p => p.holdings)))
      = .ok (some [], some []) :=
  ⟨by decide, by decide, by decide, by decide, by decide, by decide, by decide⟩

/-- Claim C6, code evaluation at the failing input: a buyer with no holding
asks for 150 shares, far outside 0 < shares <= 100. The chained guard
0 >= num_shares >= max_poss_buy is false (150 is not <= 0), so no ValueError is
raised; the purchase runs to completion, returns True and leaves the buyer
holding 150 shares. -/
theorem claim_C6_code_bug :
    (playerBuyStock gsC6 1 0 150 ansZero).map
        (fun gb => (gb.2, (findP gb.1 1).map (fun p => (p.cash, getD p.holdings 0))))
      = .ok (true, some (500, 150)) := by decide

/-- Claim C7: on a Railroad whose majority_owner is set to player p, any
sequence of sales back to the pool (of nonnegative amounts) and cleanup passes
that runs without an exception, starting from a state in which every holding
is at most 50 (so no owner, p included, is above 50 anywhere along the run),
leaves majority_owner equal to p: the cleanup scan only ever reassigns it to
an owner holding more than 50 and never clears it. Only the explicit
Railroad.foreclose resets it to none. -/
theorem claim_C7 (r r' : Railroad) (p : Nat) (ops : List RROp)
    (hmaj : r.majority_owner = some p) (hle : allLE50 r = true)
    (hops : ∀ op ∈ ops, opNonneg op = true)
    (hrun : rrRun r ops = .ok r') :
    r'.majority_owner = some p ∧ (rrForeclose r').majority_owner = none := by
  have h := rrRun_ok ops r r' (allLE50_iff.mp hle) hops hrun
  exact ⟨h.1.trans hmaj, rfl⟩

/-- Claim C7 witness: a railroad with majority owner 1 holding 40 (and another
owner at 30) keeps majority owner 1 through a cleanup pass, a sale of 10 by
player 1 and another cleanup pass, while foreclosure clears it. -/
theorem claim_C7_witness :
    rrW1.majority_owner = some 1 ∧ (rrForeclose rrW1).majority_owner = none :=
  claim_C7 rrW rrW1 1 rrWops rfl (by decide) (by decide) (by decide)

/-- Claim C8: owners 60/40, nothing unowned, buyer 2 takes 50 via sell_stock:
the floor pass removes exactly 30 and 20, the accumulated remainder is 0 (so
the distribution pass returns immediately), and the final state is 30/20 with
the buyer at 50 and unowned_stock still 0. -/
theorem claim_C8 :
    (floorLoop (eraseD (addTo assetC8.owners 2 50) 2) (addTo assetC8.owners 2 50) 50 0).2 = 0
    ∧ (assetSellStock gsC8 0 2 50 ansZero).map (fun gs1 => findA gs1 0)
      = .ok (some { total_stock_value := 1000,
                    owners := [(0, 30), (1, 20), (2, 50)],
                    unowned_stock := 0 }) := by decide

/-- Claim C9, code evaluation at the failing input: cleanup on an owners map
holding a zero-balance entry deletes from the dict being iterated, which in
CPython raises RuntimeError on the next iterator step, so the pass does not
complete and no snapshot is taken; Player.cleanup has the identical pattern on
the portfolio. -/
theorem claim_C9_code_bug :
    assetCleanup gsC9 0 true ansZero = .error .runtimeError
    ∧ playerCleanup gsC9 0 = .error .runtimeError := by decide

/-- Claim C10, code evaluation at the failing input: the failure branch does
return False with no state change (player 2 holds nothing), but a successful
sale (player 1, holding 40, sells 10) falls off the end of Player.sell_stock
and returns Python None (modelled none), not True. -/
theorem claim_C10_code_bug :
    playerSellStock gsC10 2 0 10 ansZero = .ok (gsC10, some false)
    ∧ (playerSellStock gsC10 1 0 10 ansZero).map (fun gr => gr.2) = .ok none := by decide

end MonopolyStocks
